import Mathlib

/-!
Shallow embedding of the parsing core of the `self-test-log-upload`
repository: the battery section parser, the battery health evaluator,
the test-result collector, the machine-serial resolver and the
per-document / batch processing drivers, together with proofs of the
specification claims about them.

The Python string operations used by the source (`str.strip`,
`str.split`, `in`, `str.startswith`, `str.isdigit`, `str.isalnum`,
`int(...)`, `str.upper`) are modelled structurally over `List Char`
so that every definition is executable and kernel-reducible.
Machine floats are modelled as exact rationals (`ℚ`).
-/

namespace SelfTestLog

/-! ### Python string primitives -/

/-- Python `str.strip()` on the character list: drop whitespace from
both ends. -/
def stripChars (l : List Char) : List Char :=
  ((l.dropWhile Char.isWhitespace).reverse.dropWhile Char.isWhitespace).reverse

/-- Python `line.strip()`. -/
def pyStrip (s : String) : String :=
  String.mk (stripChars s.data)

/-- Python substring test `pat in s`. -/
def containsSub (s pat : String) : Bool :=
  decide (List.IsInfix pat.data s.data)

/-- Character-list prefix test (recursing on the pattern first, so
that it reduces even when the scanned list has a symbolic tail). -/
def listStartsWith : List Char → List Char → Bool
  | [], _ => true
  | a :: as, l =>
    match l with
    | [] => false
    | b :: bs => a == b && listStartsWith as bs

/-- Python `s.startswith(pre)`. -/
def startsWith (s pre : String) : Bool :=
  listStartsWith pre.data s.data

/-- Split a character list at every occurrence of `sep`
(Python `s.split(sep)` semantics: `"".split(sep) == ['']`). -/
def splitOnChar (sep : Char) : List Char → List (List Char)
  | [] => [[]]
  | c :: cs =>
    let r := splitOnChar sep cs
    if c = sep then [] :: r
    else
      match r with
      | [] => [[c]]
      | h :: t => (c :: h) :: t

/-- Python `content.split('\n')`. -/
def pyLines (content : String) : List String :=
  (splitOnChar (Char.ofNat 10) content.data).map String.mk

/-- Helper for whitespace splitting: accumulates the current word
(reversed) while scanning. -/
def splitWsAux : List Char → List Char → List (List Char)
  | [], acc => if acc = [] then [] else [acc.reverse]
  | c :: cs, acc =>
    if c.isWhitespace then
      if acc = [] then splitWsAux cs []
      else acc.reverse :: splitWsAux cs []
    else splitWsAux cs (c :: acc)

/-- Python `line.split()` (split on whitespace runs, dropping empties). -/
def pySplitWs (s : String) : List String :=
  (splitWsAux s.data []).map String.mk

/-- Everything after the first `':'` of a line, or `none` when the line
has no colon (Python `line.split(':', 1)[1]`). -/
def afterColon : List Char → Option (List Char)
  | [] => none
  | c :: cs => if c = ':' then some cs else afterColon cs

/-- `extract_field_value` (shared by the parser classes): for a line in
format `FIELD_NAME: value`, return the part after the first colon,
stripped; `''` when the line has no colon. -/
def extract_field_value (line : String) : String :=
  match afterColon line.data with
  | some rest => String.mk (stripChars rest)
  | none => ""

/-- Python `s.isdigit()`: nonempty and all characters are digits. -/
def pyIsDigit (s : String) : Bool :=
  !s.data.isEmpty && s.data.all Char.isDigit

/-- Python `s.isalnum()`: nonempty and all characters alphanumeric. -/
def pyIsAlnum (s : String) : Bool :=
  !s.data.isEmpty && s.data.all Char.isAlphanum

/-- Python `int(s)` on a digit string. -/
def digitsVal (l : List Char) : Nat :=
  l.foldl (fun n c => n * 10 + (c.toNat - 48)) 0

/-- Python `int(s)` for a string known to satisfy `isdigit`. -/
def pyToNat (s : String) : Nat :=
  digitsVal s.data

/-- The leading digit run of a string: the text matched by
`re.match(r'(\d+)', s)`, empty when the regex does not match. -/
def leadingDigits (s : String) : List Char :=
  s.data.takeWhile Char.isDigit

/-- Python `s.upper()` (ASCII). -/
def pyUpper (s : String) : String :=
  String.mk (s.data.map Char.toUpper)

/-! ### Battery validation verdicts -/

/-- The four validation statuses produced by the battery evaluators. -/
inductive BStatus where
  | GOOD
  | FAIR
  | POOR
  | UNKNOWN
deriving DecidableEq, Repr

namespace RealLog

/-!
`LenovoLogParser.validate_battery` from `process_real_log_data.py`
(lines 15-25): the tiered battery classification that §4.3 of the spec
designates as the canonical policy.  The source also builds a
human-readable message per tier; only the status is modelled, the
message is a fixed display string per branch.
-/

/-- `LenovoLogParser.validate_battery`: `UNKNOWN` when either input is
`None`; otherwise the `GOOD` / `FAIR` / `POOR` tier chain. -/
def validate_battery (health_percentage : Option ℚ) (cycles : Option Nat) : BStatus :=
  match health_percentage, cycles with
  | none, _ => .UNKNOWN
  | some _, none => .UNKNOWN
  | some h, some c =>
    if 80 ≤ h ∧ c ≤ 500 then .GOOD
    else if 70 ≤ h ∧ c ≤ 800 then .FAIR
    else .POOR

end RealLog

namespace Uploader

/-!
`LenovoLogDatabaseUploader` from `log_database_uploader.py`.  The
validation messages (f-strings over health and cycles) are display
strings and are not modelled; every other branch of the source logic is.
-/

/-- `LenovoLogDatabaseUploader.validate_battery` (lines 57-76):
`UNKNOWN` when health is `None`; otherwise health must be `>= 80` and
cycles must be non-`None` and `< 750`; both pass → `GOOD`, health
fails → `POOR`, only cycles fails → `FAIR`. -/
def validate_battery (health_percentage : Option ℚ) (cycles : Option Nat) : BStatus :=
  match health_percentage with
  | none => .UNKNOWN
  | some h =>
    let health_passed : Prop := 80 ≤ h
    let cycles_passed : Prop := cycles.isSome = true ∧ cycles.getD 0 < 750
    if health_passed ∧ cycles_passed then .GOOD
    else if ¬ health_passed ∧ ¬ cycles_passed then .POOR
    else if ¬ health_passed then .POOR
    else .FAIR

/-- The fields that `parse_battery` accumulates into its
`battery_data` dict while walking the battery section lines; a `none`
field models an absent dict key. -/
structure BatteryData where
  manufacturer : Option String := none
  serial_number : Option String := none
  cycles : Option Nat := none
  design_capacity_num : Option Nat := none
  design_capacity : Option String := none
  full_charge_capacity_num : Option Nat := none
  full_charge_capacity : Option String := none
deriving DecidableEq, Repr

/-- One line of the `for line in battery_lines` loop of
`parse_battery` (lines 159-178): dispatch on the line's field prefix
and store the (coerced) value. A non-digit `CYCLE_COUNT` value is
stored as `0`; a capacity with no leading digits is stored as `0`. -/
def updateBatteryData (d : BatteryData) (line : String) : BatteryData :=
  if startsWith line "MANUFACTURER:" then
    { d with manufacturer := some (extract_field_value line) }
  else if startsWith line "SERIAL_NUMBER:" then
    { d with serial_number := some (extract_field_value line) }
  else if startsWith line "CYCLE_COUNT:" then
    let cycle_str := extract_field_value line
    { d with cycles := some (if pyIsDigit cycle_str then pyToNat cycle_str else 0) }
  else if startsWith line "DESIGN_CAPACITY:" then
    let capacity_str := extract_field_value line
    let m := leadingDigits capacity_str
    { d with design_capacity_num := some (if m.isEmpty then 0 else digitsVal m),
             design_capacity := some capacity_str }
  else if startsWith line "FULL_CHARGE_CAPACITY:" then
    let capacity_str := extract_field_value line
    let m := leadingDigits capacity_str
    { d with full_charge_capacity_num := some (if m.isEmpty then 0 else digitsVal m),
             full_charge_capacity := some capacity_str }
  else d

/-- The section-scan loop of `parse_battery` (lines 142-152): collect
the stripped nonempty lines between the first `+++ ... BATTERY` start
marker and the following `--- BATTERY` end marker (which `break`s the
loop); a repeated start marker resets the collected lines. -/
def batteryScan : List String → Bool → List String → List String
  | [], _, acc => acc
  | l :: ls, inSection, acc =>
    let line := pyStrip l
    if containsSub line "+++ " && containsSub line "BATTERY" then
      batteryScan ls true []
    else if containsSub line "--- BATTERY" then
      acc
    else if inSection && !(line = "") then
      batteryScan ls inSection (acc ++ [line])
    else
      batteryScan ls inSection acc

/-- The battery section lines of a document. -/
def batteryLinesOf (content : String) : List String :=
  batteryScan (pyLines content) false []

/-- The accumulated `battery_data` dict of `parse_battery`. -/
def batteryDataOf (content : String) : BatteryData :=
  (batteryLinesOf content).foldl updateBatteryData {}

/-- The health-percentage computation of `parse_battery`
(lines 180-185): defined only when both extracted capacity numbers are
positive. -/
def healthOf (d : BatteryData) : Option ℚ :=
  if 0 < d.design_capacity_num.getD 0 ∧ 0 < d.full_charge_capacity_num.getD 0 then
    some (((d.full_charge_capacity_num.getD 0 : ℕ) : ℚ)
            / ((d.design_capacity_num.getD 0 : ℕ) : ℚ) * 100)
  else none

/-- The record returned by `parse_battery` (lines 190-199); the
`validation_message` display string is not modelled. -/
structure BatteryRecord where
  serial_number : String
  manufacturer : String
  design_capacity : String
  full_charge_capacity : String
  cycles : Nat
  health_percentage : Option ℚ
  validation_status : BStatus
deriving DecidableEq, Repr

/-- Assembly of the returned record from the accumulated data
(lines 180-199). -/
def batteryRecordOf (d : BatteryData) : BatteryRecord :=
  let health_percentage := healthOf d
  { serial_number := d.serial_number.getD "Unknown"
    manufacturer := d.manufacturer.getD "Unknown"
    design_capacity := toString (d.design_capacity_num.getD 0) ++ " mWh"
    full_charge_capacity := toString (d.full_charge_capacity_num.getD 0) ++ " mWh"
    cycles := d.cycles.getD 0
    health_percentage := health_percentage
    validation_status := validate_battery health_percentage d.cycles }

/-- `LenovoLogDatabaseUploader.parse_battery` (lines 133-199): `None`
for an empty document or a document with no battery section lines;
otherwise the assembled battery record. -/
def parse_battery (content : String) : Option BatteryRecord :=
  if content = "" then none
  else if batteryLinesOf content = [] then none
  else some (batteryRecordOf (batteryDataOf content))

end Uploader

/-! ### Test result collection -/

/-- One collected test outcome: composite test name, raw result token,
normalized pass boolean. -/
structure TestOutcome where
  test_name : String
  result : String
  passed : Bool
deriving DecidableEq, Repr

/-- The result set produced by the test collectors: the ordered
outcome list plus running tallies. -/
structure TestResults where
  tests : List TestOutcome
  total_tests : Nat
  passed_tests : Nat
  failed_tests : Nat
deriving DecidableEq, Repr

namespace Uploader

/-- The inner `for i, part in enumerate(parts)` loop of
`parse_test_results` (lines 515-520): remember the token following the
most recent `STOP`, and stop at the first accepted result token.
(The token `NOT APPLICABLE` contains a space and therefore can never
equal a single whitespace-split part, exactly as in the source.) -/
def findNameResult : List String → Option String → Option String × Option String
  | [], name => (name, none)
  | p :: rest, name =>
    if p = "STOP" then
      match rest with
      | [] => (name, none)
      | q :: _ => findNameResult rest (some q)
    else if p = "PASSED" ∨ p = "FAILED" ∨ p = "NOT APPLICABLE" ∨ p = "SUCCESS" then
      (name, some p)
    else findNameResult rest name

/-- The per-line test recognition of `parse_test_results`
(lines 507-531): a stripped line containing `STOP ` together with one
of the accepted result tokens, with at least 4 whitespace-split parts,
a test name following `STOP` and a result token, yields an outcome;
`passed` is true iff the result token is `PASSED` or `SUCCESS`. -/
def recognizeTest (current_section : Option String) (line : String) : Option TestOutcome :=
  if containsSub line "STOP " &&
      (containsSub line "PASSED" || containsSub line "FAILED" ||
       containsSub line "NOT APPLICABLE" || containsSub line "SUCCESS") then
    if 4 ≤ (pySplitWs line).length then
      match findNameResult (pySplitWs line) none with
      | (some test_name_part, some result_part) =>
        if test_name_part = "" then none
        else
          some { test_name :=
                   if current_section.getD "" = "" then test_name_part
                   else current_section.getD "" ++ " - " ++ test_name_part
                 result := result_part
                 passed := decide (result_part = "PASSED" ∨ result_part = "SUCCESS") }
      | _ => none
    else none
  else none

/-- The mutable loop state of `parse_test_results`: the most recently
seen section keyword and the running outcome list and tallies. -/
structure ScanState where
  current_section : Option String := none
  tests : List TestOutcome := []
  total : Nat := 0
  passed : Nat := 0
deriving DecidableEq, Repr

/-- The `current_section` update of the scan loop (lines 500-504):
a line containing `+++ ` with at least 4 whitespace-split tokens sets
the section to the third token. -/
def sectionUpdate (cs : Option String) (line : String) : Option String :=
  if containsSub line "+++ " then
    if 4 ≤ (pySplitWs line).length then some ((pySplitWs line).getD 2 "") else cs
  else cs

/-- One iteration of the scan loop of `parse_test_results`
(lines 496-535): update `current_section` from the `+++ ` marker, then
append a recognized test outcome and bump the tallies. -/
def stepTest (st : ScanState) (rawLine : String) : ScanState :=
  match recognizeTest (sectionUpdate st.current_section (pyStrip rawLine)) (pyStrip rawLine) with
  | some t =>
    { current_section := sectionUpdate st.current_section (pyStrip rawLine)
      tests := st.tests ++ [t]
      total := st.total + 1
      passed := st.passed + (if t.passed then 1 else 0) }
  | none => { st with current_section := sectionUpdate st.current_section (pyStrip rawLine) }

/-- The full text scan of `parse_test_results` over the document. -/
def runTextScan (content : String) : ScanState :=
  (pyLines content).foldl stepTest {}

/-- `LenovoLogDatabaseUploader.parse_test_results` (lines 484-584):
the text scan, followed by the synthetic battery outcomes appended when
`parse_battery` yields a record with a non-null health percentage:
`BATTERY - HEALTH_TEST` (passed iff the validation status is `GOOD`),
`BATTERY - HEALTH_PERCENTAGE_TEST` (passed iff health ≥ 80), and
`BATTERY - CYCLE_COUNT_TEST` (passed iff cycles < 750).  The source
guards the cycle test with `if cycles is not None`, which is always
true because the battery record always stores an integer cycle count
(default 0); `failed_tests` is `total - passed` as in the source. -/
def parse_test_results (content : String) : Option TestResults :=
  if content = "" then none
  else
    let st := runTextScan content
    match parse_battery content with
    | some b =>
      match b.health_percentage with
      | some health_percentage =>
        let battery_health_passed : Prop := b.validation_status = BStatus.GOOD
        let t1 : TestOutcome :=
          { test_name := "BATTERY - HEALTH_TEST"
            result := if battery_health_passed then "PASSED" else "FAILED"
            passed := decide battery_health_passed }
        let health_percentage_passed : Prop := 80 ≤ health_percentage
        let t2 : TestOutcome :=
          { test_name := "BATTERY - HEALTH_PERCENTAGE_TEST"
            result := if health_percentage_passed then "PASSED" else "FAILED"
            passed := decide health_percentage_passed }
        let cycles_passed : Prop := b.cycles < 750
        let t3 : TestOutcome :=
          { test_name := "BATTERY - CYCLE_COUNT_TEST"
            result := if cycles_passed then "PASSED" else "FAILED"
            passed := decide cycles_passed }
        let total := st.total + 3
        let passed := st.passed + (if battery_health_passed then 1 else 0)
          + (if health_percentage_passed then 1 else 0) + (if cycles_passed then 1 else 0)
        some { tests := st.tests ++ [t1, t2, t3]
               total_tests := total
               passed_tests := passed
               failed_tests := total - passed }
      | none =>
        some { tests := st.tests, total_tests := st.total
               passed_tests := st.passed, failed_tests := st.total - st.passed }
    | none =>
      some { tests := st.tests, total_tests := st.total
             passed_tests := st.passed, failed_tests := st.total - st.passed }

end Uploader

namespace RealDataJson

/-!
`parse_test_results_from_json` from `process_real_data.py`
(lines 189-221): the JSON-format test collector.  The nested
`module / diagnostics / tests` dictionaries are modelled as structures;
`test.get('name', 'UNKNOWN')` and `test.get('result', 'UNKNOWN')` are
modelled as the stored strings.
-/

/-- One entry of a diagnostic's `tests` list. -/
structure JsonTest where
  name : String
  result : String
deriving DecidableEq, Repr

/-- One entry of a module's `diagnostics` list. -/
structure JsonDiagnostic where
  tests : List JsonTest
deriving DecidableEq, Repr

/-- One entry of the `modules` list. -/
structure JsonModule where
  name : String
  diagnostics : List JsonDiagnostic
deriving DecidableEq, Repr

/-- The flattened `(module name, test)` sequence visited by the three
nested `for` loops. -/
def flatTests (modules : List JsonModule) : List (String × JsonTest) :=
  modules.flatMap fun m =>
    m.diagnostics.flatMap fun d => d.tests.map fun t => (m.name, t)

/-- The loop body: append the outcome and bump the running tallies;
`passed` is true iff `result.upper()` is `SUCCESS`, `PASSED` or
`PASS`. -/
def stepJson (acc : List TestOutcome × Nat × Nat) (mt : String × JsonTest) :
    List TestOutcome × Nat × Nat :=
  let passed := ["SUCCESS", "PASSED", "PASS"].contains (pyUpper mt.2.result)
  (acc.1 ++ [{ test_name := mt.1 ++ " - " ++ mt.2.name
               result := mt.2.result
               passed := passed }],
   acc.2.1 + 1,
   acc.2.2 + (if passed then 1 else 0))

/-- `parse_test_results_from_json`: fold the loop body over the
flattened test sequence; `failed_tests` is `total - passed`. -/
def parse_test_results_from_json (modules : List JsonModule) : TestResults :=
  let st := (flatTests modules).foldl stepJson ([], 0, 0)
  { tests := st.1, total_tests := st.2.1
    passed_tests := st.2.2, failed_tests := st.2.1 - st.2.2 }

end RealDataJson

namespace JsonUploader

/-- The result normalization of
`DiagnosticLogParser._parse_json_test_results` in
`Json uploader/selfTest_logger.py` (lines 554-579): the status is
`PASSED` exactly when the raw result equals `SUCCESS`, else `FAILED`. -/
def test_status (result : String) : String :=
  if result = "SUCCESS" then "PASSED" else "FAILED"

end JsonUploader

/-! ### Machine serial resolution and document processing -/

namespace Uploader

/-- The filename-derived machine serial of `parse_system_info`
(lines 596-606): the token before the first `-`; when it is
alphanumeric and at least 8 characters long, its first 8 characters;
when alphanumeric and at least 6 long, the whole token; otherwise no
serial.  Guarded by Python's truthiness test on `self.filename`. -/
def serialFromFilename (filename : String) : Option String :=
  if filename = "" then none
  else
    match splitOnChar '-' filename.data with
    | [] => none
    | p0 :: _ =>
      if 8 ≤ p0.length ∧ pyIsAlnum (String.mk p0) = true then
        some (String.mk (p0.take 8))
      else if 6 ≤ p0.length ∧ pyIsAlnum (String.mk p0) = true then
        some (String.mk p0)
      else none

/-- The header-scan serial of `parse_system_info` (lines 609-619):
the first of the first 30 lines that starts with one of the three
labeled serial prefixes and whose value is alphanumeric with at least
6 characters; a matching label with an invalid value keeps scanning. -/
def serialFromLogLines : List String → Option String
  | [] => none
  | l :: ls =>
    if startsWith (pyStrip l) "SYSTEM_SERIAL_NUMBER:" ||
        startsWith (pyStrip l) "MACHINE_SERIAL_NUMBER:" ||
        startsWith (pyStrip l) "COMPUTER_SERIAL_NUMBER:" then
      if 6 ≤ (extract_field_value (pyStrip l)).data.length ∧
          pyIsAlnum (extract_field_value (pyStrip l)) = true then
        some (extract_field_value (pyStrip l))
      else serialFromLogLines ls
    else serialFromLogLines ls

/-- The machine-serial precedence of `parse_system_info`
(lines 594-636): validated filename token first, labeled header serial
second, unchecked filename token before the first `-` third,
`Unknown` last. -/
def machine_serial (filename : String) (lines : List String) : String :=
  match serialFromFilename filename with
  | some s => s
  | none =>
    match serialFromLogLines (lines.take 30) with
    | some s => s
    | none =>
      if ¬ filename = "" ∧ containsSub filename "-" = true then
        match splitOnChar '-' filename.data with
        | [] => "Unknown"
        | p0 :: _ => String.mk p0
      else "Unknown"

/-- The system information record, restricted to the machine serial.
The other fields of `parse_system_info` (model, BIOS version,
application version, execution type, companion-JSON machine type and
the timestamp extraction) are not touched by any claim and are
omitted. -/
structure SystemInfo where
  machine_serial_number : String
deriving DecidableEq, Repr

/-- `parse_system_info` (lines 586-725), restricted to the
machine-serial resolution: `None` for an empty document. -/
def parse_system_info (filename content : String) : Option SystemInfo :=
  if content = "" then none
  else some { machine_serial_number := machine_serial filename (pyLines content) }

/-- A loaded log document: originating filename plus decoded content
(the encoding-fallback loader is file I/O and is a collaborator
concern). -/
structure LogDocument where
  filename : String
  content : String
deriving DecidableEq, Repr

/-- The parsed diagnostic run assembled by `parse_all_data`
(lines 727-740), restricted to the parts the claims touch; the
display/CPU/memory/storage/motherboard component parsers are
analogous and not needed by any claim. -/
structure RunRecord where
  system_info : Option SystemInfo
  battery : Option BatteryRecord
  test_results : Option TestResults
deriving DecidableEq

/-- `parse_all_data` (lines 727-740): `None` when the loaded content
is empty, otherwise the record of component parses. -/
def parse_all_data (filename content : String) : Option RunRecord :=
  if content = "" then none
  else some { system_info := parse_system_info filename content
              battery := parse_battery content
              test_results := parse_test_results content }

/-- `process_and_upload_log_file` (lines 926-953): fail (`None`) when
`parse_all_data` fails or no valid machine serial was resolved;
otherwise the run is uploaded — the database insert is I/O, modelled
as returning the parsed record. -/
def process_and_upload_log_file (doc : LogDocument) : Option RunRecord :=
  match parse_all_data doc.filename doc.content with
  | none => none
  | some data =>
    match data.system_info with
    | none => none
    | some si =>
      if si.machine_serial_number = "" then none else some data

/-- Per-file outcome recorded by the batch driver. -/
inductive BatchStatus where
  | success
  | failed
deriving DecidableEq, Repr

/-- `process_log_directory` (lines 984-1007): process every document,
recording a per-file success/failure status and continuing past
failures (the file-discovery glob and filename filter are I/O and are
not modelled). -/
def process_log_directory (docs : List LogDocument) : List (LogDocument × BatchStatus) :=
  docs.map fun doc =>
    (doc, match process_and_upload_log_file doc with
          | some _ => BatchStatus.success
          | none => BatchStatus.failed)

end Uploader

/-! ### Invariants used in the collector proofs -/

/-- The loop invariant of the uploader's text scan: the running total
equals the length of the produced list, the passed tally never exceeds
the total, and every produced outcome's `passed` flag agrees with the
accepted success set `{PASSED, SUCCESS}`. -/
def ScanInv (st : Uploader.ScanState) : Prop :=
  st.total = st.tests.length ∧ st.passed ≤ st.total ∧
    ∀ t ∈ st.tests, t.passed = decide (t.result = "PASSED" ∨ t.result = "SUCCESS")

/-- The loop invariant of the JSON collector's fold: total equals list
length, passed tally bounded by total, and every outcome's `passed`
flag agrees with the accepted success set
`{SUCCESS, PASSED, PASS}` applied to the upper-cased raw result. -/
def JsonInv (acc : List TestOutcome × Nat × Nat) : Prop :=
  acc.2.1 = acc.1.length ∧ acc.2.2 ≤ acc.2.1 ∧
    ∀ t ∈ acc.1, t.passed = ["SUCCESS", "PASSED", "PASS"].contains (pyUpper t.result)

/-! ### Concrete documents used by witnesses and counterexamples -/

/-- A diagnostic log document whose battery section carries the spec's
scenario values: design 57000 mWh, full charge 50270 mWh, 120 cycles. -/
def c1doc : String :=
  "MACHINE_MODEL: T14\n+++ 20250729T105545UTC BATTERY QUICK DIAGNOSTIC 1753786545\nMANUFACTURER: LGC\nSERIAL_NUMBER: 5387\nCYCLE_COUNT: 120\nDESIGN_CAPACITY: 57000mWh (3691mAh)\nFULL_CHARGE_CAPACITY: 50270mWh (3059mAh)\n--- BATTERY QUICK DIAGNOSTIC 1753786545"

/-- The battery record the uploader produces for `c1doc`. -/
def c1rec : Uploader.BatteryRecord :=
  Uploader.batteryRecordOf (Uploader.batteryDataOf c1doc)

/-- The health percentage of `c1doc`'s battery: `50270/57000*100`. -/
def c1health : ℚ :=
  ((50270 : ℕ) : ℚ) / ((57000 : ℕ) : ℚ) * 100

/-- The result set the uploader produces for `c1doc`: no `STOP` lines,
so only the three synthetic battery outcomes, all passing
(health ≈ 88.19 ≥ 80, 120 cycles < 750, validation `GOOD`). -/
def c10rec : TestResults :=
  { tests := [{ test_name := "BATTERY - HEALTH_TEST", result := "PASSED", passed := true },
              { test_name := "BATTERY - HEALTH_PERCENTAGE_TEST", result := "PASSED", passed := true },
              { test_name := "BATTERY - CYCLE_COUNT_TEST", result := "PASSED", passed := true }]
    total_tests := 3
    passed_tests := 3
    failed_tests := 0 }

/-- A text document whose only test line carries the `SUCCESS` result
token. -/
def c5doc : String :=
  "+++ 20250807T202117UTC AUDIO QUICK DIAGNOSTIC 1754598077\n20250807T202117UTC STOP INTERNAL_SPEAKER_TEST SUCCESS 15 S"

/-- The result set the uploader produces for `c5doc`: the `SUCCESS`
outcome is collected as passed. -/
def c5rec : TestResults :=
  { tests := [{ test_name := "AUDIO - INTERNAL_SPEAKER_TEST", result := "SUCCESS", passed := true }]
    total_tests := 1
    passed_tests := 1
    failed_tests := 0 }

/-- A battery-free text document with one passing and one failing
test. -/
def c4doc : String :=
  "+++ 20250729T105545UTC DISPLAY DIAGNOSTIC 1753786545\n20250729T105545UTC STOP EDID_TEST PASSED 0 S\n20250729T105600UTC STOP PIXEL_TEST FAILED 3 S"

/-- The result set the uploader produces for `c4doc`. -/
def c4rec : TestResults :=
  { tests := [{ test_name := "DISPLAY - EDID_TEST", result := "PASSED", passed := true },
              { test_name := "DISPLAY - PIXEL_TEST", result := "FAILED", passed := false }]
    total_tests := 2
    passed_tests := 1
    failed_tests := 1 }

/-- A concrete JSON module list with one succeeding and one failing
test. -/
def c4modules : List RealDataJson.JsonModule :=
  [{ name := "STORAGE"
     diagnostics := [{ tests := [{ name := "SMART_TEST", result := "SUCCESS" },
                                 { name := "READ_TEST", result := "failure" }] }] }]

/-- A document whose battery section has positive capacities but a
non-digit `CYCLE_COUNT` value. -/
def c8doc : String :=
  "+++ 20250101T000000UTC BATTERY QUICK DIAGNOSTIC 1735689600\nDESIGN_CAPACITY: 1000mWh\nFULL_CHARGE_CAPACITY: 900mWh\nCYCLE_COUNT: unavailable\n--- BATTERY QUICK DIAGNOSTIC 1735689600"

/-- An empty (unparseable) log document. -/
def c9empty : Uploader.LogDocument :=
  { filename := "PF3G44S9-2025-08-07-202945.log", content := "" }

/-- A batch containing the empty document next to an ordinary one. -/
def c9docs : List Uploader.LogDocument :=
  [c9empty,
   { filename := "PF4CC0SB-2025-07-30-115447.log"
     content := "MACHINE_MODEL: T14\nBIOS_VERSION: 1.0" }]

/-! ### Claim theorems: battery health and classification -/

/-- Claim C1: for a battery section in which both extracted capacity
numbers are positive, `parse_battery` computes
`health_percentage = full_charge_capacity / design_capacity * 100`;
in every other case (a capacity missing, or coerced to zero)
`health_percentage` is null. -/
theorem battery_health_percentage_formula (content : String)
    (b : Uploader.BatteryRecord) (hb : Uploader.parse_battery content = some b) :
    (0 < (Uploader.batteryDataOf content).design_capacity_num.getD 0 ∧
       0 < (Uploader.batteryDataOf content).full_charge_capacity_num.getD 0 →
      b.health_percentage =
        some ((((Uploader.batteryDataOf content).full_charge_capacity_num.getD 0 : ℕ) : ℚ)
          / (((Uploader.batteryDataOf content).design_capacity_num.getD 0 : ℕ) : ℚ) * 100)) ∧
    (¬ (0 < (Uploader.batteryDataOf content).design_capacity_num.getD 0 ∧
          0 < (Uploader.batteryDataOf content).full_charge_capacity_num.getD 0) →
      b.health_percentage = none) := by
  unfold Uploader.parse_battery at hb
  split at hb
  · exact absurd hb (by simp)
  · split at hb
    · exact absurd hb (by simp)
    · have hbe : b = Uploader.batteryRecordOf (Uploader.batteryDataOf content) :=
        (Option.some.injEq _ _ ▸ hb).symm
      subst hbe
      constructor
      · intro hpos
        simp only [Uploader.batteryRecordOf, Uploader.healthOf, if_pos hpos]
      · intro hneg
        simp only [Uploader.batteryRecordOf, Uploader.healthOf, if_neg hneg]

/-- Witness for C1: on the concrete document `c1doc` both capacities
are positive and the computed health percentage is exactly
`50270 / 57000 * 100`. -/
theorem battery_health_percentage_formula_witness :
    (0 < (Uploader.batteryDataOf c1doc).design_capacity_num.getD 0 ∧
       0 < (Uploader.batteryDataOf c1doc).full_charge_capacity_num.getD 0) ∧
    c1rec.health_percentage =
      some ((((Uploader.batteryDataOf c1doc).full_charge_capacity_num.getD 0 : ℕ) : ℚ)
        / (((Uploader.batteryDataOf c1doc).design_capacity_num.getD 0 : ℕ) : ℚ) * 100) := by
  have hb : Uploader.parse_battery c1doc = some c1rec := by
    unfold Uploader.parse_battery
    rw [if_neg (by decide : ¬ (c1doc = "")),
        if_neg (by decide : ¬ (Uploader.batteryLinesOf c1doc = []))]
    rfl
  exact ⟨by decide, (battery_health_percentage_formula c1doc c1rec hb).1 (by decide)⟩

/-- Counterexample for C2: the claim's tiers predict `FAIR` for
health 85 with 600 cycles (health below none of the floors, cycles
above 500 but at most 800), yet `LenovoLogDatabaseUploader.validate_battery`
returns `GOOD` there (its thresholds are health ≥ 80 and cycles < 750). -/
theorem validate_battery_uploader_diverges :
    Uploader.validate_battery (some 85) (some 600) = BStatus.GOOD ∧
    BStatus.GOOD ≠ BStatus.FAIR := by
  constructor
  · have h85 : (80 : ℚ) ≤ 85 := by norm_num
    simp [Uploader.validate_battery, h85]
  · decide

/-- Claim C2 as amended: `LenovoLogParser.validate_battery` implements
exactly the claimed tier chain (GOOD when health ≥ 80 and cycles ≤ 500,
else FAIR when health ≥ 70 and cycles ≤ 800, else POOR), while
`LenovoLogDatabaseUploader.validate_battery` instead returns GOOD when
health ≥ 80 and cycles < 750, FAIR when health ≥ 80 but cycles fail,
and POOR whenever health < 80. -/
theorem validate_battery_tiers (h : ℚ) (c : ℕ) :
    RealLog.validate_battery (some h) (some c) =
      (if 80 ≤ h ∧ c ≤ 500 then BStatus.GOOD
       else if 70 ≤ h ∧ c ≤ 800 then BStatus.FAIR
       else BStatus.POOR) ∧
    Uploader.validate_battery (some h) (some c) =
      (if 80 ≤ h ∧ c < 750 then BStatus.GOOD
       else if 80 ≤ h then BStatus.FAIR
       else BStatus.POOR) := by
  refine ⟨rfl, ?_⟩
  by_cases hh : (80 : ℚ) ≤ h <;> by_cases hc : c < 750 <;>
    simp [Uploader.validate_battery, hh, hc]

/-- Counterexample for C3: a non-null health percentage with an absent
cycle count does yield `UNKNOWN` from `LenovoLogParser.validate_battery`,
contradicting the claim's parenthetical. -/
theorem validate_battery_absent_cycles_unknown :
    RealLog.validate_battery (some 90) none = BStatus.UNKNOWN := rfl

/-- Claim C3 as amended: battery classification is a total function
into the four statuses; `LenovoLogDatabaseUploader.validate_battery`
returns `UNKNOWN` iff the health percentage is null, while
`LenovoLogParser.validate_battery` returns `UNKNOWN` iff the health
percentage is null or the cycle count is null. -/
theorem validate_battery_total (h : Option ℚ) (c : Option ℕ) :
    (RealLog.validate_battery h c = BStatus.GOOD ∨
     RealLog.validate_battery h c = BStatus.FAIR ∨
     RealLog.validate_battery h c = BStatus.POOR ∨
     RealLog.validate_battery h c = BStatus.UNKNOWN) ∧
    (RealLog.validate_battery h c = BStatus.UNKNOWN ↔ h = none ∨ c = none) ∧
    (Uploader.validate_battery h c = BStatus.UNKNOWN ↔ h = none) := by
  refine ⟨?_, ?_, ?_⟩
  · cases h with
    | none => simp [RealLog.validate_battery]
    | some hv =>
      cases c with
      | none => simp [RealLog.validate_battery]
      | some cv =>
        simp only [RealLog.validate_battery]
        split_ifs <;> simp
  · cases h with
    | none => simp [RealLog.validate_battery]
    | some hv =>
      cases c with
      | none => simp [RealLog.validate_battery]
      | some cv =>
        simp only [RealLog.validate_battery]
        split_ifs <;> simp
  · cases h with
    | none => simp [Uploader.validate_battery]
    | some hv =>
      simp only [Uploader.validate_battery]
      split_ifs <;> simp

/-! ### Collector lemmas -/

/-- Every outcome recognized from a `STOP` line has its `passed` flag
computed from the `{PASSED, SUCCESS}` success set. -/
theorem recognizeTest_passed (cs : Option String) (line : String) (t : TestOutcome)
    (h : Uploader.recognizeTest cs line = some t) :
    t.passed = decide (t.result = "PASSED" ∨ t.result = "SUCCESS") := by
  unfold Uploader.recognizeTest at h
  split at h
  · split at h
    · split at h
      · split at h
        · exact absurd h (by simp)
        · rw [Option.some.injEq] at h
          subst h
          rfl
      · exact absurd h (by simp)
    · exact absurd h (by simp)
  · exact absurd h (by simp)

/-- A synthetic battery outcome with result
`"PASSED" if p else "FAILED"` and flag `decide p` also matches the
`{PASSED, SUCCESS}` success set. -/
theorem synthetic_passed (nm : String) (p : Prop) [Decidable p] :
    (TestOutcome.mk nm (if p then "PASSED" else "FAILED") (decide p)).passed =
      decide ((TestOutcome.mk nm (if p then "PASSED" else "FAILED") (decide p)).result = "PASSED" ∨
        (TestOutcome.mk nm (if p then "PASSED" else "FAILED") (decide p)).result = "SUCCESS") := by
  by_cases hp : p <;> simp [hp]

/-- A conditional tally increment is at most one. -/
theorem ite_le_one (p : Prop) [Decidable p] : (if p then (1 : Nat) else 0) ≤ 1 := by
  split <;> omega

/-- Arithmetic shape of the tally goal in the synthetic-test branch. -/
theorem tally_arith (T P i1 i2 i3 : Nat) (h2 : P ≤ T) (b1 : i1 ≤ 1) (b2 : i2 ≤ 1)
    (b3 : i3 ≤ 1) :
    P + i1 + i2 + i3 + (T + 3 - (P + i1 + i2 + i3)) = T + 3 := by
  omega

/-- One scan step preserves the scan invariant. -/
theorem stepTest_inv (st : Uploader.ScanState) (l : String) (h : ScanInv st) :
    ScanInv (Uploader.stepTest st l) := by
  obtain ⟨h1, h2, h3⟩ := h
  unfold Uploader.stepTest
  cases heq : Uploader.recognizeTest
      (Uploader.sectionUpdate st.current_section (pyStrip l)) (pyStrip l) with
  | none => exact ⟨h1, h2, h3⟩
  | some t =>
    refine ⟨by simp [h1], ?_, ?_⟩
    · have hle : (if t.passed then 1 else 0) ≤ 1 := by split <;> omega
      simp only
      omega
    · intro u hu
      simp only [List.mem_append, List.mem_singleton] at hu
      rcases hu with hu | hu
      · exact h3 u hu
      · subst hu
        exact recognizeTest_passed _ _ _ heq

/-- The scan invariant holds after folding the step over any line
list. -/
theorem foldl_stepTest_inv (lines : List String) (st : Uploader.ScanState)
    (h : ScanInv st) : ScanInv (lines.foldl Uploader.stepTest st) := by
  induction lines generalizing st with
  | nil => exact h
  | cons l ls ih => exact ih _ (stepTest_inv st l h)

/-- The full text scan satisfies the scan invariant. -/
theorem runTextScan_inv (content : String) : ScanInv (Uploader.runTextScan content) :=
  foldl_stepTest_inv _ _ ⟨rfl, Nat.le_refl 0, by intro t ht; exact absurd ht (List.not_mem_nil t)⟩

/-- One JSON collector step preserves the JSON invariant. -/
theorem stepJson_inv (acc : List TestOutcome × Nat × Nat) (mt : String × RealDataJson.JsonTest)
    (h : JsonInv acc) : JsonInv (RealDataJson.stepJson acc mt) := by
  obtain ⟨h1, h2, h3⟩ := h
  unfold RealDataJson.stepJson
  refine ⟨by simp [h1], ?_, ?_⟩
  · have : (if ["SUCCESS", "PASSED", "PASS"].contains (pyUpper mt.2.result) then 1 else 0) ≤ 1 := by
      split <;> omega
    simp only
    omega
  · intro u hu
    simp only [List.mem_append, List.mem_singleton] at hu
    rcases hu with hu | hu
    · exact h3 u hu
    · subst hu
      rfl

/-- The JSON invariant holds after folding over any flattened test
sequence. -/
theorem foldl_stepJson_inv (l : List (String × RealDataJson.JsonTest))
    (acc : List TestOutcome × Nat × Nat) (h : JsonInv acc) :
    JsonInv (l.foldl RealDataJson.stepJson acc) := by
  induction l generalizing acc with
  | nil => exact h
  | cons x xs ih => exact ih _ (stepJson_inv acc x h)

/-! ### Claim theorems: test collectors -/

/-- Claim C4: every result set produced by the test collectors
satisfies `passed_tests + failed_tests = total_tests` and
`length tests = total_tests`, for the uploader's text collector
(synthetic battery outcomes included) and for the JSON collector of
`process_real_data.py`. -/
theorem test_collector_invariant (content : String) (r : TestResults)
    (h : Uploader.parse_test_results content = some r)
    (modules : List RealDataJson.JsonModule) :
    (r.passed_tests + r.failed_tests = r.total_tests ∧ r.tests.length = r.total_tests) ∧
    ((RealDataJson.parse_test_results_from_json modules).passed_tests +
       (RealDataJson.parse_test_results_from_json modules).failed_tests =
       (RealDataJson.parse_test_results_from_json modules).total_tests ∧
     (RealDataJson.parse_test_results_from_json modules).tests.length =
       (RealDataJson.parse_test_results_from_json modules).total_tests) := by
  constructor
  · obtain ⟨s1, s2, _⟩ := runTextScan_inv content
    unfold Uploader.parse_test_results at h
    split at h
    · exact absurd h (by simp)
    · split at h
      · split at h
        · rw [Option.some.injEq] at h
          subst h
          refine ⟨?_, ?_⟩
          · exact tally_arith _ _ _ _ _ s2 (ite_le_one _) (ite_le_one _) (ite_le_one _)
          · simp only [List.length_append, List.length_cons, List.length_nil]
            omega
        · rw [Option.some.injEq] at h
          subst h
          exact ⟨Nat.add_sub_cancel' s2, s1.symm⟩
      · rw [Option.some.injEq] at h
        subst h
        exact ⟨Nat.add_sub_cancel' s2, s1.symm⟩
  · obtain ⟨j1, j2, _⟩ :=
      foldl_stepJson_inv (RealDataJson.flatTests modules) ([], 0, 0)
        ⟨rfl, Nat.le_refl 0, by intro t ht; exact absurd ht (List.not_mem_nil t)⟩
    exact ⟨Nat.add_sub_cancel' j2, j1.symm⟩

/-- Counterexample for C5: the uploader's text-format collector marks
a test whose raw result token is `SUCCESS` as passed, so the text
format's accepted success set is not exactly `{PASSED}`. -/
theorem text_collector_accepts_success :
    (Uploader.parse_test_results c5doc).map TestResults.tests =
      some [{ test_name := "AUDIO - INTERNAL_SPEAKER_TEST", result := "SUCCESS",
              passed := true }] := by
  decide

/-- Claim C5 as amended: the normalized `passed` is true iff the raw
result code is in the document format's accepted success set, which is
`{PASSED, SUCCESS}` for the uploader's text collector (synthetic
battery outcomes included), `{SUCCESS, PASSED, PASS}` case-insensitively
for the JSON collector of `process_real_data.py`, and exactly
`{SUCCESS}` for the JSON uploader's status normalization. -/
theorem passed_success_sets (content : String) (r : TestResults)
    (hr : Uploader.parse_test_results content = some r)
    (modules : List RealDataJson.JsonModule) (result : String) :
    (∀ t ∈ r.tests, t.passed = decide (t.result = "PASSED" ∨ t.result = "SUCCESS")) ∧
    (∀ t ∈ (RealDataJson.parse_test_results_from_json modules).tests,
        t.passed = ["SUCCESS", "PASSED", "PASS"].contains (pyUpper t.result)) ∧
    (JsonUploader.test_status result = "PASSED" ↔ result = "SUCCESS") := by
  refine ⟨?_, ?_, ?_⟩
  · obtain ⟨_, _, s3⟩ := runTextScan_inv content
    unfold Uploader.parse_test_results at hr
    split at hr
    · exact absurd hr (by simp)
    · split at hr
      · split at hr
        · rw [Option.some.injEq] at hr
          subst hr
          intro t ht
          simp only [List.mem_append, List.mem_cons, List.not_mem_nil, or_false] at ht
          rcases ht with ht | ht | ht | ht
          · exact s3 t ht
          · subst ht
            exact synthetic_passed _ _
          · subst ht
            exact synthetic_passed _ _
          · subst ht
            exact synthetic_passed _ _
        · rw [Option.some.injEq] at hr
          subst hr
          exact s3
      · rw [Option.some.injEq] at hr
        subst hr
        exact s3
  · obtain ⟨_, _, j3⟩ :=
      foldl_stepJson_inv (RealDataJson.flatTests modules) ([], 0, 0)
        ⟨rfl, Nat.le_refl 0, by intro t ht; exact absurd ht (List.not_mem_nil t)⟩
    exact j3
  · unfold JsonUploader.test_status
    split
    · next hc => simp [hc]
    · next hc => simp [hc]

/-- Witness for C5 (amended): the concrete `SUCCESS` outcome of
`c5doc` satisfies the text-format success-set rule. -/
theorem passed_success_sets_witness :
    ({ test_name := "AUDIO - INTERNAL_SPEAKER_TEST", result := "SUCCESS",
       passed := true } : TestOutcome).passed =
      decide (({ test_name := "AUDIO - INTERNAL_SPEAKER_TEST", result := "SUCCESS",
                 passed := true } : TestOutcome).result = "PASSED" ∨
              ({ test_name := "AUDIO - INTERNAL_SPEAKER_TEST", result := "SUCCESS",
                 passed := true } : TestOutcome).result = "SUCCESS") :=
  (passed_success_sets c5doc c5rec (by decide) [] "SUCCESS").1 _ (by decide)

/-- Claim C10: when `parse_battery` yields a record with a non-null
health percentage, the uploader's collector appends exactly the three
synthetic battery outcomes with the claimed pass conditions and counts
them in the tallies; when the health percentage is null (or there is
no battery record), the result set is exactly the scanned one. -/
theorem synthetic_battery_tests (content : String) (r : TestResults)
    (h : Uploader.parse_test_results content = some r) :
    (∀ b, Uploader.parse_battery content = some b →
      ∀ hp, b.health_percentage = some hp →
        r.tests = (Uploader.runTextScan content).tests ++
          [{ test_name := "BATTERY - HEALTH_TEST",
             result := if b.validation_status = BStatus.GOOD then "PASSED" else "FAILED",
             passed := decide (b.validation_status = BStatus.GOOD) },
           { test_name := "BATTERY - HEALTH_PERCENTAGE_TEST",
             result := if 80 ≤ hp then "PASSED" else "FAILED",
             passed := decide (80 ≤ hp) },
           { test_name := "BATTERY - CYCLE_COUNT_TEST",
             result := if b.cycles < 750 then "PASSED" else "FAILED",
             passed := decide (b.cycles < 750) }] ∧
        r.total_tests = (Uploader.runTextScan content).total + 3 ∧
        r.passed_tests = (Uploader.runTextScan content).passed
          + (if b.validation_status = BStatus.GOOD then 1 else 0)
          + (if 80 ≤ hp then 1 else 0)
          + (if b.cycles < 750 then 1 else 0)) ∧
    ((Uploader.parse_battery content).bind Uploader.BatteryRecord.health_percentage = none →
      r.tests = (Uploader.runTextScan content).tests ∧
      r.total_tests = (Uploader.runTextScan content).total ∧
      r.passed_tests = (Uploader.runTextScan content).passed) := by
  constructor
  · intro b hb hp hhp
    unfold Uploader.parse_test_results at h
    split at h
    · exact absurd h (by simp)
    · split at h
      · next b2 heqb =>
        split at h
        · next hp2 heqhp =>
          rw [Option.some.injEq] at h
          subst h
          rw [heqb, Option.some.injEq] at hb
          subst hb
          rw [heqhp, Option.some.injEq] at hhp
          subst hhp
          exact ⟨rfl, rfl, rfl⟩
        · next heqhp =>
          rw [heqb, Option.some.injEq] at hb
          subst hb
          rw [heqhp] at hhp
          exact absurd hhp (by simp)
      · next heqb =>
        rw [heqb] at hb
        exact absurd hb (by simp)
  · intro hnone
    unfold Uploader.parse_test_results at h
    split at h
    · exact absurd h (by simp)
    · split at h
      · next b2 heqb =>
        split at h
        · next hp2 heqhp =>
          rw [heqb, Option.some_bind, heqhp] at hnone
          exact absurd hnone (by simp)
        · rw [Option.some.injEq] at h
          subst h
          exact ⟨rfl, rfl, rfl⟩
      · rw [Option.some.injEq] at h
        subst h
        exact ⟨rfl, rfl, rfl⟩

/-- Witness for C10: on `c1doc` (health ≈ 88.19, 120 cycles,
validation `GOOD`) the produced result set is exactly the scanned one
followed by the three synthetic battery outcomes, all counted. -/
theorem synthetic_battery_tests_witness :
    c10rec.tests = (Uploader.runTextScan c1doc).tests ++
      [{ test_name := "BATTERY - HEALTH_TEST",
         result := if c1rec.validation_status = BStatus.GOOD then "PASSED" else "FAILED",
         passed := decide (c1rec.validation_status = BStatus.GOOD) },
       { test_name := "BATTERY - HEALTH_PERCENTAGE_TEST",
         result := if 80 ≤ c1health then "PASSED" else "FAILED",
         passed := decide (80 ≤ c1health) },
       { test_name := "BATTERY - CYCLE_COUNT_TEST",
         result := if c1rec.cycles < 750 then "PASSED" else "FAILED",
         passed := decide (c1rec.cycles < 750) }] ∧
    c10rec.total_tests = (Uploader.runTextScan c1doc).total + 3 ∧
    c10rec.passed_tests = (Uploader.runTextScan c1doc).passed
      + (if c1rec.validation_status = BStatus.GOOD then 1 else 0)
      + (if 80 ≤ c1health then 1 else 0)
      + (if c1rec.cycles < 750 then 1 else 0) := by
  have hq : (80 : ℚ) ≤ c1health := by
    unfold c1health
    push_cast
    norm_num
  have hd : Uploader.batteryDataOf c1doc =
      { manufacturer := some "LGC", serial_number := some "5387", cycles := some 120,
        design_capacity_num := some 57000, design_capacity := some "57000mWh (3691mAh)",
        full_charge_capacity_num := some 50270,
        full_charge_capacity := some "50270mWh (3059mAh)" } := by
    decide
  have hhealth : Uploader.healthOf (Uploader.batteryDataOf c1doc) = some c1health := by
    rw [hd]
    unfold Uploader.healthOf
    rw [if_pos (by decide)]
    rfl
  have hb : Uploader.parse_battery c1doc = some c1rec := by
    unfold Uploader.parse_battery
    rw [if_neg (by decide : ¬ (c1doc = "")),
        if_neg (by decide : ¬ (Uploader.batteryLinesOf c1doc = []))]
    rfl
  have hhp : c1rec.health_percentage = some c1health := hhealth
  have hstatus : c1rec.validation_status = BStatus.GOOD := by
    show Uploader.validate_battery (Uploader.healthOf (Uploader.batteryDataOf c1doc))
      (Uploader.batteryDataOf c1doc).cycles = BStatus.GOOD
    rw [hhealth, hd]
    simp [Uploader.validate_battery, hq]
  have hcy : c1rec.cycles = 120 := by
    show (Uploader.batteryDataOf c1doc).cycles.getD 0 = 120
    rw [hd]
    rfl
  have hst : Uploader.runTextScan c1doc =
      { current_section := some "BATTERY", tests := [], total := 0, passed := 0 } := by
    decide
  have hr : Uploader.parse_test_results c1doc = some c10rec := by
    unfold Uploader.parse_test_results
    rw [if_neg (by decide : ¬ (c1doc = "")), hb]
    dsimp only
    rw [hhp]
    dsimp only
    rw [hstatus, hcy, hst]
    simp [hq, c10rec]
  exact (synthetic_battery_tests c1doc c10rec hr).1 c1rec hb c1health hhp

/-! ### Claim theorems: serial resolution, absence, coercion, batch -/

/-- Claim C6: the machine serial is resolved by precedence — validated
filename token, then labeled header serial from the first 30 lines,
then the unchecked filename token before the first `-`, then
`Unknown`; and the filename `PF3G44S9-2025-08-07-202945.log` resolves
to `PF3G44S9`. -/
theorem machine_serial_precedence (filename : String) (lines : List String) :
    (∀ s, Uploader.serialFromFilename filename = some s →
      Uploader.machine_serial filename lines = s) ∧
    (Uploader.serialFromFilename filename = none →
      ∀ s, Uploader.serialFromLogLines (lines.take 30) = some s →
        Uploader.machine_serial filename lines = s) ∧
    (Uploader.serialFromFilename filename = none →
      Uploader.serialFromLogLines (lines.take 30) = none →
      Uploader.machine_serial filename lines =
        (if ¬ filename = "" ∧ containsSub filename "-" = true then
          (match splitOnChar '-' filename.data with
           | [] => "Unknown"
           | p0 :: _ => String.mk p0)
         else "Unknown")) ∧
    Uploader.machine_serial "PF3G44S9-2025-08-07-202945.log" [] = "PF3G44S9" := by
  refine ⟨?_, ?_, ?_, by decide⟩
  · intro s hs
    unfold Uploader.machine_serial
    rw [hs]
  · intro h1 s hs
    unfold Uploader.machine_serial
    rw [h1, hs]
  · intro h1 h2
    unfold Uploader.machine_serial
    rw [h1, h2]

/-- Witness for C6: the spec's scenario filename resolves through the
first precedence stage. -/
theorem machine_serial_precedence_witness :
    Uploader.machine_serial "PF3G44S9-2025-08-07-202945.log" [] = "PF3G44S9" :=
  (machine_serial_precedence "PF3G44S9-2025-08-07-202945.log" []).1 "PF3G44S9" (by decide)

/-- The battery section scan collects nothing when no line carries a
battery start or end marker. -/
theorem batteryScan_no_markers (lines : List String)
    (h : ∀ l ∈ lines,
      ¬ ((containsSub (pyStrip l) "+++ " = true ∧ containsSub (pyStrip l) "BATTERY" = true) ∨
         containsSub (pyStrip l) "--- BATTERY" = true)) :
    Uploader.batteryScan lines false [] = [] := by
  induction lines with
  | nil => rfl
  | cons l ls ih =>
    have hl := h l (List.mem_cons_self l ls)
    have hc1 : ¬ ((containsSub (pyStrip l) "+++ " &&
        containsSub (pyStrip l) "BATTERY") = true) := by
      simp only [Bool.and_eq_true]
      intro hcc
      exact hl (Or.inl hcc)
    have hc2 : ¬ (containsSub (pyStrip l) "--- BATTERY" = true) := fun hcc => hl (Or.inr hcc)
    unfold Uploader.batteryScan
    rw [if_neg hc1, if_neg hc2, if_neg (by simp)]
    exact ih fun x hx => h x (List.mem_cons_of_mem l hx)

/-- Claim C7: a document none of whose lines carries a battery
start or end marker makes `parse_battery` return `None` (the
component-absent outcome), and — the parser being a total function —
no exception is involved. -/
theorem battery_absent_section (content : String)
    (h : ∀ l ∈ pyLines content,
      ¬ ((containsSub (pyStrip l) "+++ " = true ∧ containsSub (pyStrip l) "BATTERY" = true) ∨
         containsSub (pyStrip l) "--- BATTERY" = true)) :
    Uploader.parse_battery content = none := by
  unfold Uploader.parse_battery
  by_cases hc : content = ""
  · rw [if_pos hc]
  · have hbl : Uploader.batteryLinesOf content = [] := batteryScan_no_markers (pyLines content) h
    rw [if_neg hc, if_pos hbl]

/-- Witness for C7: a two-line document without battery markers. -/
theorem battery_absent_section_witness :
    Uploader.parse_battery "HELLO\nWORLD" = none :=
  battery_absent_section "HELLO\nWORLD" (by decide)

/-- Counterexample for C8: on `c8doc` the non-digit `CYCLE_COUNT`
value is coerced to the fabricated value `0` — not to an absent cycle
count: the record carries `cycles = 0` and validation saw `some 0`
(yielding `GOOD`), whereas an absent cycle count would have yielded
`FAIR`. -/
theorem nondigit_cycles_fabricated :
    (Uploader.parse_battery c8doc).map (fun b => (b.cycles, b.validation_status)) =
      some (0, BStatus.GOOD) ∧
    Uploader.validate_battery (some 90) none = BStatus.FAIR := by
  have hq : (80 : ℚ) ≤ ((900 : ℕ) : ℚ) / ((1000 : ℕ) : ℚ) * 100 := by
    push_cast
    norm_num
  have hqlit : (80 : ℚ) ≤ (900 : ℚ) / (1000 : ℚ) * 100 := by norm_num
  have hnlt : ¬ ((900 : ℚ) / (1000 : ℚ) * 100 < 80) := not_lt.mpr hqlit
  have hd : Uploader.batteryDataOf c8doc =
      { manufacturer := none, serial_number := none, cycles := some 0,
        design_capacity_num := some 1000, design_capacity := some "1000mWh",
        full_charge_capacity_num := some 900,
        full_charge_capacity := some "900mWh" } := by
    decide
  constructor
  · have hb : Uploader.parse_battery c8doc =
        some (Uploader.batteryRecordOf (Uploader.batteryDataOf c8doc)) := by
      unfold Uploader.parse_battery
      rw [if_neg (by decide : ¬ (c8doc = "")),
          if_neg (by decide : ¬ (Uploader.batteryLinesOf c8doc = []))]
    rw [hb]
    have hhealth : Uploader.healthOf (Uploader.batteryDataOf c8doc) =
        some (((900 : ℕ) : ℚ) / ((1000 : ℕ) : ℚ) * 100) := by
      rw [hd]
      unfold Uploader.healthOf
      rw [if_pos (by decide)]
      rfl
    have hstatus : (Uploader.batteryRecordOf (Uploader.batteryDataOf c8doc)).validation_status =
        BStatus.GOOD := by
      show Uploader.validate_battery (Uploader.healthOf (Uploader.batteryDataOf c8doc))
        (Uploader.batteryDataOf c8doc).cycles = BStatus.GOOD
      rw [hhealth, hd]
      simp [Uploader.validate_battery, hq, hqlit, hnlt]
    have hcyc : (Uploader.batteryRecordOf (Uploader.batteryDataOf c8doc)).cycles = 0 := by
      show (Uploader.batteryDataOf c8doc).cycles.getD 0 = 0
      rw [hd]
      rfl
    rw [show Option.map (fun b : Uploader.BatteryRecord => (b.cycles, b.validation_status))
          (some (Uploader.batteryRecordOf (Uploader.batteryDataOf c8doc))) =
        some ((Uploader.batteryRecordOf (Uploader.batteryDataOf c8doc)).cycles,
          (Uploader.batteryRecordOf (Uploader.batteryDataOf c8doc)).validation_status) from rfl]
    rw [hstatus, hcyc]
  · have h90 : (80 : ℚ) ≤ 90 := by norm_num
    have h90n : ¬ ((90 : ℚ) < 80) := not_lt.mpr h90
    simp [Uploader.validate_battery, h90, h90n]

/-- Claim C8 as amended: numeric extraction is a total function and
never raises, but a battery `CYCLE_COUNT` line whose value is not a
digit string is coerced to the value `0` (stored as a present key),
not to an absent cycle count. -/
theorem nondigit_cycles_coerced (d : Uploader.BatteryData) (s : String)
    (h : pyIsDigit (pyStrip s) = false) :
    (Uploader.updateBatteryData d (String.append "CYCLE_COUNT:" s)).cycles = some 0 := by
  show some (if pyIsDigit (pyStrip s) = true then pyToNat (pyStrip s) else 0) = some 0
  rw [h]
  simp

/-- Witness for C8 (amended): the non-digit value ` unavailable` is
coerced to cycle count `0`. -/
theorem nondigit_cycles_coerced_witness :
    (Uploader.updateBatteryData {} (String.append "CYCLE_COUNT:" " unavailable")).cycles =
      some 0 :=
  nondigit_cycles_coerced {} " unavailable" (by decide)

/-- Claim C9: an empty document fails its single-document processing
(`None` from `process_and_upload_log_file`), and the batch driver
records that document as failed while still emitting one entry for
every document of the batch. -/
theorem empty_document_failure (docs : List Uploader.LogDocument)
    (doc : Uploader.LogDocument) (hmem : doc ∈ docs) (hempty : doc.content = "") :
    Uploader.process_and_upload_log_file doc = none ∧
    (doc, Uploader.BatchStatus.failed) ∈ Uploader.process_log_directory docs ∧
    (Uploader.process_log_directory docs).length = docs.length ∧
    ∀ d ∈ docs,
      (d, match Uploader.process_and_upload_log_file d with
          | some _ => Uploader.BatchStatus.success
          | none => Uploader.BatchStatus.failed) ∈ Uploader.process_log_directory docs := by
  have hnone : Uploader.process_and_upload_log_file doc = none := by
    unfold Uploader.process_and_upload_log_file Uploader.parse_all_data
    rw [hempty]
    simp
  refine ⟨hnone, ?_, ?_, ?_⟩
  · have hm := List.mem_map_of_mem
      (fun d => (d, match Uploader.process_and_upload_log_file d with
                    | some _ => Uploader.BatchStatus.success
                    | none => Uploader.BatchStatus.failed)) hmem
    simpa [Uploader.process_log_directory, hnone] using hm
  · simp [Uploader.process_log_directory]
  · intro d hd
    exact List.mem_map_of_mem _ hd

/-- Witness for C9: the concrete batch `c9docs` containing the empty
document `c9empty`. -/
theorem empty_document_failure_witness :
    Uploader.process_and_upload_log_file c9empty = none ∧
    (c9empty, Uploader.BatchStatus.failed) ∈ Uploader.process_log_directory c9docs ∧
    (Uploader.process_log_directory c9docs).length = c9docs.length ∧
    ∀ d ∈ c9docs,
      (d, match Uploader.process_and_upload_log_file d with
          | some _ => Uploader.BatchStatus.success
          | none => Uploader.BatchStatus.failed) ∈ Uploader.process_log_directory c9docs :=
  empty_document_failure c9docs c9empty (by decide) (by decide)

/-- Witness for C4 on the concrete document `c4doc` and module list
`c4modules`. -/
theorem test_collector_invariant_witness :
    ((c4rec.passed_tests + c4rec.failed_tests = c4rec.total_tests ∧
      c4rec.tests.length = c4rec.total_tests) ∧
     ((RealDataJson.parse_test_results_from_json c4modules).passed_tests +
        (RealDataJson.parse_test_results_from_json c4modules).failed_tests =
        (RealDataJson.parse_test_results_from_json c4modules).total_tests ∧
      (RealDataJson.parse_test_results_from_json c4modules).tests.length =
        (RealDataJson.parse_test_results_from_json c4modules).total_tests)) :=
  test_collector_invariant c4doc c4rec (by decide) c4modules

end SelfTestLog
